import Mathlib

/-!
Shallow embedding of `src/main.go` (wansanjou/email-api): a Gin HTTP API over a
GORM/SQLite store of users and products, plus a cron job (`checkExpiryJob`)
that emails each user whose products are close to expiry.

Time is modelled the way Go stores it: absolute instants and durations are
integer nanosecond counts (`Int`).  Go computes
`daysLeft := int(p.Expiry.Sub(now).Hours() / 24)`: the real-valued duration in
hours divided by 24, truncated towards zero; over integer nanoseconds this is
T-division (`Int.div`) of the duration by the nanoseconds in 24 hours.

The store and the mail transport are external collaborators; their outcomes
(success/failure of a read, a write, a send) are passed in as explicit
parameters, and the embedding reproduces exactly what the Go code does with
those outcomes — in particular `main.go` never inspects the `Error` field of
`db.Create` / `db.Find` inside `createUser`, `listUsers` and `checkExpiryJob`,
and `sendEmailToUser` only logs a failed `DialAndSend`.
-/

namespace EmailApi

/-- `Product` of `main.go`: id, name, expiry timestamp (ns), owning user id.
(`CreatedAt` is audit-only and never read; it is omitted.) -/
structure Product where
  id : Nat
  name : String
  expiry : Int
  userID : Nat
deriving Repr, DecidableEq

/-- `User` of `main.go`, as materialised by a query: id, name, email, and the
`Products` association (empty unless the query preloaded it). -/
structure User where
  id : Nat
  name : String
  email : String
  products : List Product
deriving Repr, DecidableEq

/-- Nanoseconds in 24 hours. -/
def nsPerDay : Int := 24 * 60 * 60 * 1000000000

/-- `daysLeft := int(p.Expiry.Sub(now).Hours() / 24)` — the duration from `now`
to `expiry`, divided by 24h and truncated towards zero (`Int.tdiv` is
T-division, matching Go's `int(...)` conversion of the float quotient). -/
def daysLeft (expiry now : Int) : Int := Int.tdiv (expiry - now) nsPerDay

/-- The qualification test of line 170 of `main.go`: `daysLeft <= 3`. -/
def qualifies (now : Int) (p : Product) : Bool := daysLeft p.expiry now ≤ 3

/-- Line 171: `fmt.Sprintf("%s (เหลือ %d วัน)", p.Name, daysLeft)`. -/
def describe (now : Int) (p : Product) : String :=
  p.name ++ " (เหลือ " ++ toString (daysLeft p.expiry now) ++ " วัน)"

/-- The inner loop of `checkExpiryJob` (lines 167-173): walk the user's
products in load order and append the description of each qualifying one. -/
def expiringFor (now : Int) : List Product → List String
  | [] => []
  | p :: ps =>
    if qualifies now p then describe now p :: expiringFor now ps
    else expiringFor now ps

/-- The body built by `sendEmailToUser` (lines 189-193): a header line then
one `"- " ++ description ++ "\n"` line per product, in list order. -/
def emailBody (products : List String) : String :=
  "รายการสินค้าที่ใกล้หมดอายุ:\n" ++
    (products.foldr (fun p acc => "- " ++ p ++ "\n" ++ acc) "")

/-- The outer loop of `checkExpiryJob` (lines 166-180), observed as the
sequence of `(recipient email, message body)` notifications attempted, in
order.  A user with an empty `expiring` list is skipped (line 176). -/
def checkExpiryJob (now : Int) : List User → List (String × String)
  | [] => []
  | u :: us =>
    let expiring := expiringFor now u.products
    if expiring.isEmpty then checkExpiryJob now us
    else (u.email, emailBody expiring) :: checkExpiryJob now us

/-- One line of the job's log: the attempted recipient and body, and whether
`DialAndSend` succeeded (`sendEmailToUser` logs the outcome and returns
nothing, lines 198-202). -/
structure LogEntry where
  email : String
  body : String
  ok : Bool
deriving Repr, DecidableEq

/-- `checkExpiryJob` again, now recording transport outcomes: `send k` is the
success/failure of the `k`-th `DialAndSend` of the run.  The Go loop never
reads the outcome (it is only logged inside `sendEmailToUser`), so the
iteration continues identically either way. -/
def runJob (now : Int) (send : Nat → Bool) : List User → Nat → List LogEntry
  | [], _ => []
  | u :: us, k =>
    let expiring := expiringFor now u.products
    if expiring.isEmpty then runJob now send us k
    else ⟨u.email, emailBody expiring, send k⟩ :: runJob now send us (k + 1)

/-- A row of the Users table (what `db.Create(&user)` persists). -/
structure StoredUser where
  id : Nat
  name : String
  email : String
deriving Repr, DecidableEq

/-- The persistent state: the Users table and the Products table. -/
structure Store where
  users : List StoredUser
  products : List Product
deriving Repr, DecidableEq

/-- Parsed JSON body of `POST /users` (lines 67-70). -/
structure CreateUserInput where
  name : String
  email : String
deriving Repr, DecidableEq

/-- Parsed JSON body of `POST /users/:id/products` (lines 90-93). -/
structure AddProductInput where
  name : String
  expiry : Int
deriving Repr, DecidableEq

/-- Outcome of the `createUser` handler: HTTP status, JSON payload (the echoed
user, absent on a 400), and the store after the request. -/
structure CreateUserResult where
  status : Nat
  response : Option User
  store : Store
deriving Repr, DecidableEq

/-- Auto-increment primary key GORM assigns to a newly inserted user. -/
def freshUserId (st : Store) : Nat := st.users.length + 1

/-- `createUser` (lines 66-79).  A malformed body (`none`) gets a 400 and no
write.  Otherwise the handler calls `db.Create(&user)` and — without looking
at its `Error` — responds 200 with the `user` struct; `writeOk` is the
store's verdict: on success the row is persisted and the ID populated, on
failure nothing is persisted (the ID stays Go's zero value), but the response
is the same 200 either way. -/
def createUser (body : Option CreateUserInput) (writeOk : Bool) (st : Store) :
    CreateUserResult :=
  match body with
  | none => ⟨400, none, st⟩
  | some input =>
    let uid := if writeOk then freshUserId st else 0
    let user : User := ⟨uid, input.name, input.email, []⟩
    let st' : Store :=
      if writeOk then ⟨st.users ++ [⟨uid, input.name, input.email⟩], st.products⟩
      else st
    ⟨200, some user, st'⟩

/-- `listUsers` (lines 82-86): `db.Find(&users)` with no `Preload`, so every
returned user's `Products` association is left unloaded (empty). -/
def listUsers (st : Store) : List User :=
  st.users.map fun su => ⟨su.id, su.name, su.email, []⟩

/-- `db.First(&user, id)`: primary-key lookup in the Users table. -/
def findUser (st : Store) (id : Nat) : Option StoredUser :=
  st.users.find? fun su => su.id = id

/-- Outcome of the `addProductToUser` handler. -/
structure AddProductResult where
  status : Nat
  response : Option Product
  store : Store
deriving Repr, DecidableEq

/-- Auto-increment primary key GORM assigns to a newly inserted product. -/
def freshProductId (st : Store) : Nat := st.products.length + 1

/-- `addProductToUser` (lines 89-109): 400 on a malformed body; 404 when
`db.First(&user, id)` fails (user absent), before any write; otherwise
`db.Create(&product)` with the error again ignored and a 200 with the
product. -/
def addProductToUser (id : Nat) (body : Option AddProductInput) (writeOk : Bool)
    (st : Store) : AddProductResult :=
  match body with
  | none => ⟨400, none, st⟩
  | some input =>
    match findUser st id with
    | none => ⟨404, none, st⟩
    | some u =>
      let pid := if writeOk then freshProductId st else 0
      let product : Product := ⟨pid, input.name, input.expiry, u.id⟩
      let st' : Store :=
        if writeOk then ⟨st.users, st.products ++ [product]⟩ else st
      ⟨200, some product, st'⟩

/-- Outcome of the `listUserProducts` handler (no write happens). -/
structure ListProductsResult where
  status : Nat
  response : Option (List Product)
deriving Repr, DecidableEq

/-- `listUserProducts` (lines 112-119): `db.Where("user_id = ?", id).Find` —
a filter on the Products table with no user-existence check; 404 only when the
query itself errors (`readOk = false`). -/
def listUserProducts (id : Nat) (readOk : Bool) (st : Store) : ListProductsResult :=
  if readOk then ⟨200, some (st.products.filter fun p => p.userID = id)⟩
  else ⟨404, none⟩

/-- Lines 162-163 of `checkExpiryJob`: `db.Preload("Products").Find(&users)`
with the `Error` field never inspected.  When the read fails the `users`
slice keeps its zero value (empty), and the run proceeds over it. -/
def checkExpiryJobRun (readRes : Except Unit (List User)) (now : Int) :
    List (String × String) :=
  let users := match readRes with
    | Except.error _ => []
    | Except.ok us => us
  checkExpiryJob now users

/-! ## Helper lemmas -/

/-- The inner loop emits exactly the descriptions of the qualifying products,
in load order. -/
theorem expiringFor_eq (now : Int) (ps : List Product) :
    expiringFor now ps = (ps.filter (qualifies now)).map (describe now) := by
  induction ps with
  | nil => rfl
  | cons p ps ih =>
    cases h : qualifies now p <;> simp [expiringFor, List.filter_cons, h, ih]

/-- The outer loop is a `filterMap` over the loaded users: each user
contributes one `(email, body)` pair exactly when their `expiring` list is
nonempty. -/
theorem checkExpiryJob_eq (now : Int) (us : List User) :
    checkExpiryJob now us
      = us.filterMap (fun u =>
          let e := expiringFor now u.products
          if e.isEmpty then none else some (u.email, emailBody e)) := by
  induction us with
  | nil => rfl
  | cons u us ih =>
    cases h : expiringFor now u.products <;>
      simp [checkExpiryJob, List.filterMap_cons, h, ih]

/-- The attempted `(email, body)` pairs of a run do not depend on the
transport outcomes. -/
theorem runJob_attempts (now : Int) (send : Nat → Bool) (us : List User) :
    ∀ k, (runJob now send us k).map (fun e => (e.email, e.body))
      = checkExpiryJob now us := by
  induction us with
  | nil => intro k; rfl
  | cons u us ih =>
    intro k
    cases h : expiringFor now u.products <;>
      simp [runJob, checkExpiryJob, h, ih]

/-- The logged outcome of the `j`-th send of a run is exactly the transport's
verdict on that send and nothing else. -/
theorem runJob_outcomes (now : Int) (send : Nat → Bool) (us : List User) :
    ∀ k, (runJob now send us k).map LogEntry.ok
      = (List.range' k (checkExpiryJob now us).length).map send := by
  induction us with
  | nil => intro k; rfl
  | cons u us ih =>
    intro k
    cases h : expiringFor now u.products <;>
      simp [runJob, checkExpiryJob, h, ih, List.range'_succ]

/-- Folding the `body += "- " + p + "\n"` loop from the left starting at `s`
prepends `s` to the fold of the lines. -/
theorem bodyLines_shift (l : List String) :
    ∀ s : String, l.foldl (fun r x => r ++ x) s
      = s ++ l.foldr (fun x acc => x ++ acc) "" := by
  induction l with
  | nil => intro s; simp [String.append_empty]
  | cons x l ih => intro s; simp [ih (s ++ x), String.append_assoc]

/-- The accumulated lines are the concatenation, in order, of one line per
description. -/
theorem foldr_lines (ds : List String) :
    ds.foldr (fun p acc => "- " ++ p ++ "\n" ++ acc) ""
      = (ds.map fun d => "- " ++ d ++ "\n").foldr (fun x acc => x ++ acc) "" := by
  induction ds with
  | nil => rfl
  | cons d ds ih =>
    simp only [List.foldr_cons, List.map_cons]
    rw [ih]

/-- The body built by `sendEmailToUser` is the header followed by the in-order
join of one line per description. -/
theorem emailBody_eq_join (ds : List String) :
    emailBody ds = "รายการสินค้าที่ใกล้หมดอายุ:\n"
      ++ String.join (ds.map fun d => "- " ++ d ++ "\n") := by
  unfold emailBody
  rw [foldr_lines]
  simp [String.join, bodyLines_shift, String.empty_append]

/-- Every listed description shows up verbatim as a `"- " ++ d ++ "\n"` line
inside the fold of the lines. -/
theorem foldr_lines_mem : ∀ (ds : List String) (d : String), d ∈ ds →
    ∃ pre post, ds.foldr (fun p acc => "- " ++ p ++ "\n" ++ acc) ""
      = pre ++ ("- " ++ d ++ "\n") ++ post := by
  intro ds
  induction ds with
  | nil => intro d hd; cases hd
  | cons x ds ih =>
    intro d hd
    rcases List.mem_cons.mp hd with h | h
    · refine ⟨"", ds.foldr (fun p acc => "- " ++ p ++ "\n" ++ acc) "", ?_⟩
      subst h
      simp [String.empty_append, String.append_assoc]
    · obtain ⟨pre, post, hh⟩ := ih d h
      exact ⟨"- " ++ x ++ "\n" ++ pre, post, by
        simp only [List.foldr_cons]
        rw [hh]
        simp [String.append_assoc]⟩

/-- Every listed description shows up verbatim inside the built body. -/
theorem emailBody_contains (ds : List String) (d : String) (hd : d ∈ ds) :
    ∃ pre post, emailBody ds = pre ++ ("- " ++ d ++ "\n") ++ post := by
  obtain ⟨pre, post, hh⟩ := foldr_lines_mem ds d hd
  exact ⟨"รายการสินค้าที่ใกล้หมดอายุ:\n" ++ pre, post, by
    unfold emailBody
    rw [hh]
    simp [String.append_assoc]⟩

/-! ## Claim theorems -/

/-- C1: the expiry job captures one `now` per run and uses that same `now` in
every comparison (each use below takes the single `now` argument); the
descriptions emitted for a product list are exactly those of the products
whose truncated `daysLeft` is at most 3, so a product with truncated
`daysLeft > 3` is never included and an already-expired product
(`daysLeft ≤ 0`) always is. -/
theorem checkExpiry_inclusion (now : Int) (ps : List Product) (p : Product)
    (hp : p ∈ ps) :
    expiringFor now ps = (ps.filter (qualifies now)).map (describe now)
    ∧ (p ∈ ps.filter (qualifies now) ↔ daysLeft p.expiry now ≤ 3)
    ∧ (3 < daysLeft p.expiry now → p ∉ ps.filter (qualifies now))
    ∧ (daysLeft p.expiry now ≤ 0 → p ∈ ps.filter (qualifies now)) := by
  have hmem : p ∈ ps.filter (qualifies now) ↔ daysLeft p.expiry now ≤ 3 := by
    simp [List.mem_filter, hp, qualifies]
  refine ⟨expiringFor_eq now ps, hmem, ?_, ?_⟩
  · intro h3 hc
    have := hmem.mp hc
    omega
  · intro h0
    exact hmem.mpr (by omega)

/-- C1 at a concrete input: a product two days from expiry, against `now = 0`. -/
theorem checkExpiry_inclusion_witness :
    (⟨1, "Milk", 2 * nsPerDay, 1⟩ : Product) ∈ ([⟨1, "Milk", 2 * nsPerDay, 1⟩] : List Product)
    ∧ (expiringFor 0 [⟨1, "Milk", 2 * nsPerDay, 1⟩]
        = ((List.filter (qualifies 0) [⟨1, "Milk", 2 * nsPerDay, 1⟩]).map (describe 0))
      ∧ ((⟨1, "Milk", 2 * nsPerDay, 1⟩ : Product)
            ∈ List.filter (qualifies 0) [⟨1, "Milk", 2 * nsPerDay, 1⟩]
          ↔ daysLeft (Product.expiry ⟨1, "Milk", 2 * nsPerDay, 1⟩) 0 ≤ 3)
      ∧ (3 < daysLeft (Product.expiry ⟨1, "Milk", 2 * nsPerDay, 1⟩) 0 →
          (⟨1, "Milk", 2 * nsPerDay, 1⟩ : Product)
            ∉ List.filter (qualifies 0) [⟨1, "Milk", 2 * nsPerDay, 1⟩])
      ∧ (daysLeft (Product.expiry ⟨1, "Milk", 2 * nsPerDay, 1⟩) 0 ≤ 0 →
          (⟨1, "Milk", 2 * nsPerDay, 1⟩ : Product)
            ∈ List.filter (qualifies 0) [⟨1, "Milk", 2 * nsPerDay, 1⟩])) :=
  ⟨List.mem_singleton.mpr rfl,
   checkExpiry_inclusion 0 [⟨1, "Milk", 2 * nsPerDay, 1⟩] ⟨1, "Milk", 2 * nsPerDay, 1⟩
     (List.mem_singleton.mpr rfl)⟩

/-- C2: per user per run, the job invokes the notification exactly once when
the user has at least one qualifying product and not at all otherwise — the
run is the `filterMap` sending a user with nonempty `expiring` to the single
pair of their email and the batched body and skipping the rest — and the body
of a user's notification contains each of their qualifying descriptions. -/
theorem job_one_notification_per_user (now : Int) (users : List User) :
    checkExpiryJob now users
      = users.filterMap (fun u =>
          let e := expiringFor now u.products
          if e.isEmpty then none else some (u.email, emailBody e))
    ∧ ∀ u ∈ users, ∀ d ∈ expiringFor now u.products,
        ∃ pre post,
          emailBody (expiringFor now u.products) = pre ++ ("- " ++ d ++ "\n") ++ post := by
  refine ⟨checkExpiryJob_eq now users, ?_⟩
  intro u _ d hd
  exact emailBody_contains _ d hd

/-- C2 at a concrete input: the one user's qualifying-product description is
in the body of their one notification. -/
theorem job_one_notification_per_user_witness :
    ∃ pre post,
      emailBody (expiringFor 0 (User.products ⟨1, "A", "a@x.com", [⟨1, "Milk", 2 * nsPerDay, 1⟩]⟩))
        = pre ++ ("- " ++ describe 0 ⟨1, "Milk", 2 * nsPerDay, 1⟩ ++ "\n") ++ post :=
  (job_one_notification_per_user 0 [⟨1, "A", "a@x.com", [⟨1, "Milk", 2 * nsPerDay, 1⟩]⟩]).2
    ⟨1, "A", "a@x.com", [⟨1, "Milk", 2 * nsPerDay, 1⟩]⟩ (List.mem_singleton.mpr rfl)
    (describe 0 ⟨1, "Milk", 2 * nsPerDay, 1⟩)
    (by
      have hq : qualifies 0 ⟨1, "Milk", 2 * nsPerDay, 1⟩ = true := by decide
      simp [expiringFor, hq])

/-- C6: a send failure is isolated: which `(email, body)` notifications are
attempted does not depend on the transport outcomes, and the logged outcome
of the `k`-th send of the run is exactly the transport's verdict on that one
send — so one user's failure aborts nothing and alters no other user's
notification. -/
theorem send_failure_isolated (now : Int) (users : List User) (send : Nat → Bool) :
    (runJob now send users 0).map (fun e => (e.email, e.body)) = checkExpiryJob now users
    ∧ (runJob now send users 0).map LogEntry.ok
      = (List.range (checkExpiryJob now users).length).map send := by
  refine ⟨runJob_attempts now send users 0, ?_⟩
  rw [runJob_outcomes now send users 0, List.range_eq_range']

/-- C7: descriptions keep load order: the emitted list is the
order-preserving filter of the loaded products mapped to descriptions, and
the body is the header followed by the in-order join of one line per
description. -/
theorem notification_order (now : Int) (ps : List Product) :
    expiringFor now ps = (ps.filter (qualifies now)).map (describe now)
    ∧ emailBody (expiringFor now ps)
      = "รายการสินค้าที่ใกล้หมดอายุ:\n"
        ++ String.join ((expiringFor now ps).map fun d => "- " ++ d ++ "\n") :=
  ⟨expiringFor_eq now ps, emailBody_eq_join _⟩

/-- C10: determinism of a run — with the loaded users and `now` fixed, two
executions attempt the identical `(recipient, body)` sequence, whatever the
transport outcomes are in each. -/
theorem job_deterministic (now : Int) (users : List User) (s t : Nat → Bool) :
    (runJob now s users 0).map (fun e => (e.email, e.body))
      = (runJob now t users 0).map (fun e => (e.email, e.body)) := by
  rw [runJob_attempts now s users 0, runJob_attempts now t users 0]

/-- C3 (counterexample): a store-write failure inside `createUser` does not
abort the request — with the write failing (nothing persisted), the handler
still answers 200, completing as a success. -/
theorem createUser_write_failure_200 :
    (createUser (some ⟨"A", "a@x.com"⟩) false ⟨[], []⟩).status = 200
    ∧ (createUser (some ⟨"A", "a@x.com"⟩) false ⟨[], []⟩).store = (⟨[], []⟩ : Store) :=
  ⟨rfl, rfl⟩

/-- C3 (amended): storage failures are silently ignored rather than
aborted-and-logged — when the job's `Find` fails the users slice stays empty
so the run sends no notification, and when a handler's `Create` fails the
request still completes with a 200 and an unchanged store. -/
theorem storageError_ignored :
    (∀ now : Int, checkExpiryJobRun (Except.error ()) now = [])
    ∧ ∀ (input : CreateUserInput) (st : Store),
        (createUser (some input) false st).status = 200
        ∧ (createUser (some input) false st).store = st :=
  ⟨fun _ => rfl, fun _ _ => ⟨rfl, rfl⟩⟩

/-- C4 (counterexample): with no users in the store, id 1 resolves to no
existing user, yet the (successful) query answers 200 with an empty array
instead of a not-found error. -/
theorem listUserProducts_missing_user_200 :
    (listUserProducts 1 true ⟨[], []⟩).status = 200
    ∧ (listUserProducts 1 true ⟨[], []⟩).response = some [] :=
  ⟨rfl, rfl⟩

/-- C4 (amended): when the query succeeds the response is always 200 with the
products whose `user_id` equals `:id` — empty when the user exists but owns
none, and equally 200-with-empty when the user does not exist; a 404 arises
exactly when the underlying query fails. -/
theorem listUserProducts_contract (id : Nat) (st : Store) :
    (listUserProducts id true st).status = 200
    ∧ (listUserProducts id true st).response
        = some (st.products.filter fun p => p.userID = id)
    ∧ (listUserProducts id false st).status = 404 :=
  ⟨rfl, rfl, rfl⟩

/-- C5: POST /users/:id/products under an id with no user gets a 404 with the
store untouched (the lookup happens before any write); and any run of the
handler only ever adds products whose `userID` is the id of a user present in
the store at creation time. -/
theorem addProduct_requires_user (id : Nat) (input : AddProductInput) (ok : Bool)
    (st : Store) (h : findUser st id = none) :
    ((addProductToUser id (some input) ok st).status = 404
      ∧ (addProductToUser id (some input) ok st).store = st)
    ∧ ∀ (i : Nat) (b : Option AddProductInput) (o : Bool) (s : Store) (p : Product),
        p ∈ (addProductToUser i b o s).store.products →
          p ∈ s.products ∨ ∃ su ∈ s.users, su.id = p.userID := by
  constructor
  · constructor <;> simp [addProductToUser, h]
  · intro i b o s p hp
    match b with
    | none => exact Or.inl hp
    | some inp =>
      match hf : findUser s i with
      | none =>
        simp [addProductToUser, hf] at hp
        exact Or.inl hp
      | some u =>
        match o with
        | false =>
          simp [addProductToUser, hf] at hp
          exact Or.inl hp
        | true =>
          simp [addProductToUser, hf, List.mem_append] at hp
          rcases hp with hp | hp
          · exact Or.inl hp
          · subst hp
            exact Or.inr ⟨u, List.mem_of_find?_eq_some hf, rfl⟩

/-- C5 at a concrete input: posting a product under id 1 of an empty store. -/
theorem addProduct_requires_user_witness :
    findUser ⟨[], []⟩ 1 = none
    ∧ (addProductToUser 1 (some ⟨"Milk", 0⟩) true ⟨[], []⟩).status = 404
    ∧ (addProductToUser 1 (some ⟨"Milk", 0⟩) true ⟨[], []⟩).store = (⟨[], []⟩ : Store) :=
  ⟨rfl,
   (addProduct_requires_user 1 ⟨"Milk", 0⟩ true ⟨[], []⟩ rfl).1.1,
   (addProduct_requires_user 1 ⟨"Milk", 0⟩ true ⟨[], []⟩ rfl).1.2⟩

/-- C8: POST /users — a malformed body gets a 400 and leaves the store
untouched; a well-formed body gets a 200 echoing a user with the posted name
and email and an empty `Products` association, the created row being appended
to the Users table. -/
theorem createUser_contract (input : CreateUserInput) (ok : Bool) (st : Store) :
    createUser none ok st = ⟨400, none, st⟩
    ∧ (createUser (some input) ok st).status = 200
    ∧ (createUser (some input) true st).response
        = some ⟨freshUserId st, input.name, input.email, []⟩
    ∧ (createUser (some input) true st).store
        = ⟨st.users ++ [⟨freshUserId st, input.name, input.email⟩], st.products⟩ := by
  refine ⟨rfl, ?_, rfl, rfl⟩
  cases ok <;> rfl

/-- C9: GET /users never loads products: every user returned by `listUsers`
carries an empty `Products` association, whatever the store holds. -/
theorem listUsers_products_empty (st : Store) (u : User) (hu : u ∈ listUsers st) :
    u.products = [] := by
  obtain ⟨su, _, rfl⟩ := List.mem_map.mp hu
  rfl

/-- C9 at a concrete store whose single user owns a product: the returned
user still carries none. -/
theorem listUsers_products_empty_witness :
    (⟨1, "A", "a@x.com", []⟩ : User)
        ∈ listUsers ⟨[⟨1, "A", "a@x.com"⟩], [⟨1, "Milk", 0, 1⟩]⟩
    ∧ (⟨1, "A", "a@x.com", []⟩ : User).products = [] :=
  ⟨List.mem_singleton.mpr rfl,
   listUsers_products_empty ⟨[⟨1, "A", "a@x.com"⟩], [⟨1, "Milk", 0, 1⟩]⟩ _
     (List.mem_singleton.mpr rfl)⟩

end EmailApi
